import Mathlib

/-!
Shallow embedding of `src/main.py` (VersePoster), a scheduled script that
posts Quran verses to Telegram.  Python values flowing through the script
are modelled by an inductive `Json` type; fallible Python operations are
modelled with `Except PyErr`; each external service call (Telegram,
Quran API, OCR, Gemini) is modelled by injecting its response through an
`Env` record, while the pure logic of every function is translated
line by line from the source.
-/

/-- A parsed JSON value (the result of Python's `json.load` /
`response.json()`).  JSON numbers are modelled as integers; the state
file and the API fields the script reads are integer-valued.
Fields of an object parsed from JSON have pairwise distinct keys. -/
inductive Json where
  | null : Json
  | bool : Bool → Json
  | num : Int → Json
  | str : String → Json
  | arr : List Json → Json
  | obj : List (String × Json) → Json

/-- Python exceptions that can escape the functions modelled here. -/
inductive PyErr where
  | typeError : PyErr
  | attributeError : PyErr
  | valueError : PyErr
  | keyError : PyErr

/-- Python truthiness of a JSON value (`if x:`). -/
def Json.truthy : Json → Bool
  | .null => false
  | .bool b => b
  | .num n => n != 0
  | .str s => s != ""
  | .arr xs => !xs.isEmpty
  | .obj fs => !fs.isEmpty

/-- Python `d.get(k)` on a parsed JSON object: the value of key `k`, if present. -/
def jget (fs : List (String × Json)) (k : String) : Option Json :=
  (fs.find? (fun p => p.1 == k)).map (fun p => p.2)

/-- Does the literal `pat` occur at the head of `s`?  Returns the rest
of `s` after the literal when it does. -/
def litPre : List Char → List Char → Option (List Char)
  | [], s => some s
  | _ :: _, [] => none
  | a :: as, b :: bs => if a = b then litPre as bs else none

/-- Substring test: does `pat` occur anywhere in the second list?
Models Python `pat in s` for strings. -/
def strContains (pat : List Char) : List Char → Bool
  | [] => (litPre pat []).isSome
  | c :: t => (litPre pat (c :: t)).isSome || strContains pat t

/-- Python `k in j`: key test on a dict, membership on a list (a string
key only equals string elements), substring test on a string, and a
`TypeError` on the remaining types. -/
def pyContains (j : Json) (k : String) : Except PyErr Bool :=
  match j with
  | .obj fs => .ok (fs.any (fun p => p.1 == k))
  | .arr xs => .ok (xs.any (fun x => match x with | .str s => s == k | _ => false))
  | .str s => .ok (strContains k.data s.data)
  | _ => .error .typeError

/-- Python `j[k]` with a string key: dict lookup; a `TypeError` on
non-dict values (indexing a list or string with a string key). -/
def pyIndex (j : Json) (k : String) : Except PyErr Json :=
  match j with
  | .obj fs =>
    match jget fs k with
    | some v => .ok v
    | none => .error .keyError
  | _ => .error .typeError

/-- Decimal digit string to a natural number; `none` unless the string
is nonempty and all ASCII digits. -/
def digitsToNat : List Char → Option Nat
  | [] => none
  | cs =>
    if cs.all Char.isDigit then
      some (cs.foldl (fun acc c => 10 * acc + (c.toNat - 48)) 0)
    else none

/-- Python `int()` applied to a string: optional surrounding whitespace,
an optional sign, then decimal digits.  (Real `int()` additionally
accepts underscore separators and non-ASCII decimal digits; every digit
group matched by the script's patterns is plain ASCII after
normalisation, and a token outside this grammar fails here just as a
non-numeric token fails in `int()`.) -/
def pyInt (cs : List Char) : Option Int :=
  let t := ((cs.dropWhile Char.isWhitespace).reverse.dropWhile Char.isWhitespace).reverse
  match t with
  | '+' :: rest => (digitsToNat rest).map (fun n => (n : Int))
  | '-' :: rest => (digitsToNat rest).map (fun n => -(n : Int))
  | rest => (digitsToNat rest).map (fun n => (n : Int))

/-- Python `int()` applied to a JSON value: identity on ints, 0/1 on
bools, string parsing on strings, `TypeError` otherwise. -/
def pyIntJson : Json → Except PyErr Int
  | .num n => .ok n
  | .bool b => .ok (if b then 1 else 0)
  | .str s =>
    match pyInt s.data with
    | some n => .ok n
    | none => .error .valueError
  | _ => .error .typeError

/-- Python `state.get(k, dflt)`: dict lookup with a default;
`AttributeError` when the receiver is not a dict. -/
def dictGet (j : Json) (k : String) (dflt : Json) : Except PyErr Json :=
  match j with
  | .obj fs =>
    match jget fs k with
    | some v => .ok v
    | none => .ok dflt
  | _ => .error .attributeError

/-- Truthiness of an optional JSON value (`if x:` where `x` may be
Python `None`). -/
def optTruthy : Option Json → Bool
  | none => false
  | some v => v.truthy

/-- Truthiness of an optional string (an environment variable:
unset or empty is falsy). -/
def optStrTruthy : Option String → Bool
  | none => false
  | some s => s != ""

/-! ### Regex engine

The three patterns of `parse_verse_locally` use only literals,
character-class repetitions `c{lo,hi}` / `c*` / `c+`, alternation and
capture groups.  `matchPat` enumerates the ways a pattern can match a
prefix of the input in exactly Python's backtracking priority order
(alternatives left to right, repetitions greedy), so the head of the
list is the match Python's engine commits to, and `searchFrom` scans
start positions left to right as `re.search` does. -/

/-- Pattern syntax: literal, greedy class repetition (upper bound
`none` = unbounded), alternation, sequencing, capture group. -/
inductive Pat where
  | lit : List Char → Pat
  | cls : (Char → Bool) → Nat → Option Nat → Pat
  | alt : Pat → Pat → Pat
  | seq : Pat → Pat → Pat
  | grp : Nat → Pat → Pat

/-- Captured groups: group number paired with the captured text. -/
abbrev Caps := List (Nat × List Char)

/-- The repetition counts a greedy `c{lo,hi}` tries at the head of `s`,
longest first. -/
def clsLens (p : Char → Bool) (lo : Nat) (hi : Option Nat) (s : List Char) : List Nat :=
  let run := (s.takeWhile p).length
  let top := match hi with | some h => min h run | none => run
  (List.range (top + 1)).reverse.filter (fun k => decide (lo ≤ k))

/-- All prefix matches of a pattern against `s`, each as captured
groups plus the remaining input, in backtracking priority order. -/
def matchPat : Pat → List Char → List (Caps × List Char)
  | .lit l, s =>
    match litPre l s with
    | some rest => [([], rest)]
    | none => []
  | .cls p lo hi, s => (clsLens p lo hi s).map (fun k => ([], s.drop k))
  | .alt a b, s => matchPat a s ++ matchPat b s
  | .seq a b, s =>
    (matchPat a s).flatMap (fun c1 =>
      (matchPat b c1.2).map (fun c2 => (c1.1 ++ c2.1, c2.2)))
  | .grp n a, s =>
    (matchPat a s).map (fun c => (c.1 ++ [(n, s.take (s.length - c.2.length))], c.2))

/-- Model of `re.search`: try each start position left to right and return the
captures of the first (highest-priority) match found. -/
def searchFrom (p : Pat) : List Char → Option Caps
  | [] =>
    match matchPat p [] with
    | c :: _ => some c.1
    | [] => none
  | ch :: t =>
    match matchPat p (ch :: t) with
    | c :: _ => some c.1
    | [] => searchFrom p t

/-- Model of `match.group(n)`. -/
def getGroup (c : Caps) (n : Nat) : Option (List Char) :=
  (c.find? (fun x => x.1 == n)).map (fun x => x.2)

/-- One iteration of the accept logic of `parse_verse_locally`:
`surah, ayah = int(match.group(1)), int(match.group(2))`, accepted only
if `1 <= surah <= 114 and ayah >= 1`; an `int()` failure or an
out-of-range pair falls through to the next pattern (`none`). -/
def acceptMatch (r : Option Caps) : Option (Int × Int) :=
  match r with
  | none => none
  | some caps =>
    match getGroup caps 1 with
    | none => none
    | some g1 =>
      match getGroup caps 2 with
      | none => none
      | some g2 =>
        match pyInt g1 with
        | none => none
        | some s =>
          match pyInt g2 with
          | none => none
          | some a =>
            if 1 ≤ s ∧ s ≤ 114 ∧ 1 ≤ a then some (s, a) else none

/-- Search one pattern and run the accept logic on its match. -/
def tryPat (p : Pat) (cs : List Char) : Option (Int × Int) :=
  acceptMatch (searchFrom p cs)

/-- The `arabic_to_numeric` replacement table, in the source's
insertion order. -/
def arabicDigitPairs : List (Char × Char) :=
  [('٠', '0'), ('١', '1'), ('٢', '2'), ('٣', '3'), ('٤', '4'),
   ('٥', '5'), ('٦', '6'), ('٧', '7'), ('٨', '8'), ('٩', '9')]

/-- Python `s.replace(a, b)` for single characters. -/
def replaceChar (s : List Char) (a b : Char) : List Char :=
  s.map (fun c => if c = a then b else c)

/-- The digit-normalisation loop: each Arabic-Indic digit replaced by
its ASCII digit (the sources and targets are disjoint, so the
sequential replaces are independent). -/
def normalizeDigits (s : List Char) : List Char :=
  arabicDigitPairs.foldl (fun acc p => replaceChar acc p.1 p.2) s

/-- Class `\d` (the script's inputs are digit-normalised before matching;
this models the ASCII decimal digits). -/
def isDigitChar (c : Char) : Bool := c.isDigit

/-- Class `\s`. -/
def isWs (c : Char) : Bool := c.isWhitespace

/-- Class `[:/]`. -/
def isColonSlash (c : Char) : Bool := c = ':' || c = '/'

/-- Class `[^\s،]`. -/
def isTokenChar (c : Char) : Bool := !c.isWhitespace && c ≠ '،'

/-- Pattern 1: `(?:سورة|سوره)\s*(\d{1,3})\s*(?:آية|ايه|اية)\s*(\d{1,4})`. -/
def pat1 : Pat :=
  .seq (.alt (.lit ("سورة".data)) (.lit ("سوره".data)))
    (.seq (.cls isWs 0 none)
      (.seq (.grp 1 (.cls isDigitChar 1 (some 3)))
        (.seq (.cls isWs 0 none)
          (.seq (.alt (.lit ("آية".data)) (.alt (.lit ("ايه".data)) (.lit ("اية".data))))
            (.seq (.cls isWs 0 none)
              (.grp 2 (.cls isDigitChar 1 (some 4))))))))

/-- Pattern 2: `(\d{1,3})\s*[:/]\s*(\d{1,4})`. -/
def pat2 : Pat :=
  .seq (.grp 1 (.cls isDigitChar 1 (some 3)))
    (.seq (.cls isWs 0 none)
      (.seq (.cls isColonSlash 1 (some 1))
        (.seq (.cls isWs 0 none)
          (.grp 2 (.cls isDigitChar 1 (some 4))))))

/-- Pattern 3: `([^\s،]+)\s+(\d{1,4})` (the "last resort" pattern). -/
def pat3 : Pat :=
  .seq (.grp 1 (.cls isTokenChar 1 none))
    (.seq (.cls isWs 1 none)
      (.grp 2 (.cls isDigitChar 1 (some 4))))

/-- Model of `parse_verse_locally`: normalise Arabic-Indic digits, then try the
three patterns in order; the first pattern whose search result passes
the accept logic wins. -/
def parse_verse_locally (text : String) : Option (Int × Int) :=
  match tryPat pat1 (normalizeDigits text.data) with
  | some r => some r
  | none =>
    match tryPat pat2 (normalizeDigits text.data) with
    | some r => some r
    | none => tryPat pat3 (normalizeDigits text.data)


/-! ### External services and the environment

Each network call the script makes is modelled by injecting the value
the call would produce through an `Env` record; the pure handling of
that value is translated from the source.  `save_state` is the only
code that writes the state file, so a run's effect on the file is fully
described by whether `save_state` is reached and with which arguments. -/

/-- Environment of one run: configuration plus the responses the
external services deliver during this run. -/
structure Env where
  /-- `TELEGRAM_BOT_TOKEN` (`none` = unset; `some ""` = set but empty, falsy). -/
  botToken : Option String
  /-- `TELEGRAM_CHAT_ID`. -/
  chatId : Option String
  /-- State file: `none` = file absent; `some none` = reading or JSON
  parsing raised (caught in `load_state`); `some (some j)` = parsed to `j`. -/
  stateFileJson : Option (Option Json)
  /-- Result of the `getUpdates` fetch and the reversed scan for a message
  of the configured chat in `get_latest_telegram_message` (performed only
  when both credentials are truthy). -/
  latestMessage : Option Json
  /-- Text produced by the Telegram file download plus OCR in
  `extract_text_from_image`; `none` = any failure (caught there). -/
  ocrText : Option String
  /-- `HAS_GEMINI`: the google-genai import succeeded. -/
  hasGemini : Bool
  /-- `gemini_client` was initialised (API key present, constructor ok). -/
  geminiClient : Bool
  /-- Gemini call in `identify_verse_with_gemini`: `none` = the request
  raised, `response.text` was empty, or JSON/schema validation failed
  (all caught there); otherwise the parsed optional `surah`/`ayah` fields. -/
  geminiResp : Option (Option Int × Option Int)
  /-- `GET /surah/{n}` response body for the surah queried this run
  (`none` = request exception or non-2xx, caught in `get_surah_info`). -/
  quranSurahResp : Option Json
  /-- `GET /ayah/{s}:{a}` response body (`none` = request exception or
  non-2xx, caught in `fetch_verse`). -/
  quranAyahResp : Option Json
  /-- Whether `sendMessage` succeeds with `ok` true, given that both
  credentials are truthy and the call is made. -/
  postOk : Bool

/-- Model of `load_state`: the parsed state file, or the default
`{'last_surah': 1, 'last_ayah': 0}` when the file is missing or
unreadable (a read or parse exception is caught and logged). -/
def load_state (env : Env) : Json :=
  match env.stateFileJson with
  | some (some j) => j
  | some none => Json.obj [("last_surah", Json.num 1), ("last_ayah", Json.num 0)]
  | none => Json.obj [("last_surah", Json.num 1), ("last_ayah", Json.num 0)]

/-- Model of `get_latest_telegram_message`: returns `None` (after
logging an error) when either credential is missing or empty; otherwise
the message found by the update scan, injected from the environment. -/
def get_latest_telegram_message (env : Env) : Option Json :=
  if !(optStrTruthy env.botToken) || !(optStrTruthy env.chatId) then none
  else env.latestMessage

/-- Model of `extract_text_from_image`: `None` without a bot token;
otherwise the OCR text injected from the environment (any exception in
the download/OCR chain is caught there and yields `None`). -/
def extract_text_from_image (env : Env) : Option String :=
  if !(optStrTruthy env.botToken) then none else env.ocrText

/-- Model of `identify_verse_with_gemini`: `None` unless Gemini is
importable and the client was initialised; the response is accepted iff
both pydantic fields are truthy (`if verse_id.surah and verse_id.ayah`),
i.e. present and non-zero — there is no range validation here. -/
def identify_verse_with_gemini (env : Env) (_text : String) : Option (Int × Int) :=
  if !env.hasGemini || !env.geminiClient then none
  else
    match env.geminiResp with
    | none => none
    | some fields =>
      match fields.1, fields.2 with
      | some s, some a => if s != 0 && a != 0 then some (s, a) else none
      | _, _ => none

/-- Model of `get_surah_info`: on response `data`, return `data['data']`
when `data.get('code') == 200 and 'data' in data`; else return
`data['data']` when it is a dict containing `'ayahs'`; else `None`.
A non-dict body makes `.get` raise inside the function's `try`, which
is caught and yields `None`. -/
def get_surah_info (resp : Option Json) : Option Json :=
  match resp with
  | none => none
  | some (Json.obj fs) =>
    match jget fs ("code"), jget fs ("data") with
    | some (Json.num 200), some d => some d
    | _, _ =>
      match jget fs ("data") with
      | some (Json.obj ds) =>
        if (jget ds ("ayahs")).isSome then some (Json.obj ds) else none
      | _ => none
  | some _ => none

/-- Model of `fetch_verse`: `data['data']` when
`data.get('code') == 200 and 'data' in data`; else the whole body when
it has both `'text'` and `'surah'`; else `None`.  A non-dict body raises
inside the `try` and yields `None`. -/
def fetch_verse (resp : Option Json) : Option Json :=
  match resp with
  | none => none
  | some (Json.obj fs) =>
    match jget fs ("code"), jget fs ("data") with
    | some (Json.num 200), some d => some d
    | _, _ =>
      if (jget fs ("text")).isSome && (jget fs ("surah")).isSome then
        some (Json.obj fs)
      else none
  | some _ => none

/-- Model of `post_to_telegram`: `False` (after logging) when either
credential is missing or empty; otherwise the `ok` field of the
`sendMessage` response, injected from the environment (any exception is
caught there and yields `False`). -/
def post_to_telegram (env : Env) : Bool :=
  if !(optStrTruthy env.botToken) || !(optStrTruthy env.chatId) then false
  else env.postOk

/-! ### `compute_next_verse` -/

/-- Key list of the total-ayah loop, in source order (the fourth entry
duplicates the first, as in the source). -/
def ayahKeys : List String :=
  ["numberOfAyahs", "number_of_ayahs", "ayahs_count", "numberOfAyahs"]

/-- One iteration of `for key in (...)`: `if key in surah_info` may
raise a `TypeError` on a number/bool; on a dict, a present key is
`int()`-converted, and a conversion failure is the `except: continue`
(`none`); on a list or string, `key in` evaluates without error, and
the subsequent `surah_info[key]` with a string key raises inside the
`try`, which the `except` turns into a continue — so the iteration
yields `none` either way. -/
def keyStep (info : Json) (k : String) : Except PyErr (Option Int) :=
  match info with
  | .obj fs =>
    match jget fs k with
    | some v =>
      .ok (match pyIntJson v with | .ok n => some n | .error _ => none)
    | none => .ok none
  | .arr _ => .ok none
  | .str _ => .ok none
  | _ => .error .typeError

/-- The `for key in (...)` loop: first key whose `int()` conversion
succeeds (`break`), propagating the `TypeError` a non-container
`surah_info` raises. -/
def findTotal (info : Json) : List String → Except PyErr (Option Int)
  | [] => .ok none
  | k :: ks =>
    match keyStep info k with
    | .error e => .error e
    | .ok (some n) => .ok (some n)
    | .ok none => findTotal info ks

/-- Total-ayah extraction of `compute_next_verse`: the key loop, then —
only when it produced nothing — the `surah_info.get('ayahs')` list
fallback; `.get` on a non-dict raises an uncaught `AttributeError`. -/
def lookupTotal (info : Json) : Except PyErr (Option Int) :=
  match findTotal info ayahKeys with
  | .error e => .error e
  | .ok (some t) => .ok (some t)
  | .ok none =>
    match info with
    | .obj fs =>
      match jget fs ("ayahs") with
      | some (.arr xs) => .ok (some (xs.length : Int))
      | _ => .ok none
    | _ => .error .attributeError

/-- Model of `compute_next_verse`, taking the raw `GET /surah/{n}`
response: falsy or missing surah info defaults to `(surah, ayah+1)`;
with a known total, `ayah < total` advances within the surah and
otherwise the result wraps to `((surah % 114) + 1, 1)`. -/
def compute_next_verse (surahResp : Option Json) (cs ca : Int) :
    Except PyErr (Int × Int) :=
  match get_surah_info surahResp with
  | none => .ok (cs, ca + 1)
  | some info =>
    if !info.truthy then .ok (cs, ca + 1)
    else
      match lookupTotal info with
      | .error e => .error e
      | .ok none => .ok (cs, ca + 1)
      | .ok (some total) =>
        if ca < total then .ok (cs, ca + 1)
        else .ok ((cs % 114) + 1, 1)

/-! ### `run_once` -/

/-- Entries of the run log's `steps` list (only the step tags and the
verse numbers are modelled; text previews are not). -/
inductive Step where
  | loadedState : Int → Int → Step
  | telegramMessageText : Step
  | updatedFromTelegram : Int → Int → Step
  | nextVerseComputed : Int → Int → Step
  | fetchVerseFailed : Step
  | preparedMessage : Step
  | postedToTelegram : Int → Int → Step
  | telegramPostFailed : Step

/-- Observable outcome of a completed (non-crashing) run: the run log's
steps and success flag, the `save_state` call if one was made, and
whether `post_to_telegram` was reached. -/
structure RunResult where
  steps : List Step
  success : Bool
  stateWrite : Option (Int × Int)
  postAttempted : Bool

/-- State loading prefix of `run_once`:
`int(state.get('last_surah', 1))` and `int(state.get('last_ayah', 0))`;
`.get` on a non-dict state and `int()` on a non-numeric value raise
uncaught exceptions here. -/
def stateInts (env : Env) : Except PyErr (Int × Int) :=
  let state := load_state env
  match dictGet state ("last_surah") (Json.num 1) with
  | .error e => .error e
  | .ok v1 =>
    match pyIntJson v1 with
    | .error e => .error e
    | .ok cs =>
      match dictGet state ("last_ayah") (Json.num 0) with
      | .error e => .error e
      | .ok v2 =>
        match pyIntJson v2 with
        | .error e => .error e
        | .ok ca => .ok (cs, ca)

/-- The `elif 'photo' in message` branch: everything inside its `try`
(`message['photo'][-1]`, `.get('file_id')`) collapses to `None` on any
exception; a truthy file id leads to OCR. -/
def photoText (env : Env) (m : Json) : Option Json :=
  match m with
  | .obj fs =>
    match jget fs ("photo") with
    | some (.arr xs) =>
      match xs.getLast? with
      | some (.obj pfs) =>
        match jget pfs ("file_id") with
        | some fid =>
          if fid.truthy then (extract_text_from_image env).map Json.str
          else none
        | none => none
      | _ => none
    | _ => none
  | _ => none

/-- Extraction of `msg_text` from a truthy message: `'text' in message`
/ `'caption' in message` (which can raise on a non-dict message), then
the photo/OCR branch whose errors are swallowed. -/
def extractMsgText (env : Env) (m : Json) : Except PyErr (Option Json) :=
  match pyContains m ("text") with
  | .error e => .error e
  | .ok true =>
    match pyIndex m ("text") with
    | .error e => .error e
    | .ok v => .ok (some v)
  | .ok false =>
    match pyContains m ("caption") with
    | .error e => .error e
    | .ok true =>
      match pyIndex m ("caption") with
      | .error e => .error e
      | .ok v => .ok (some v)
    | .ok false =>
      match pyContains m ("photo") with
      | .error e => .error e
      | .ok true => .ok (photoText env m)
      | .ok false => .ok none

/-- The run log's `msg_text[:120]` preview: slicing is fine on strings
and lists but raises a `TypeError` on dicts, numbers and booleans. -/
def previewSlice : Json → Except PyErr Unit
  | .str _ => .ok ()
  | .arr _ => .ok ()
  | _ => .error .typeError

/-- Calling `parse_verse_locally(msg_text)` begins with `text.replace`, which
raises an `AttributeError` unless `msg_text` is a string. -/
def asStr : Json → Except PyErr String
  | .str s => .ok s
  | _ => .error .attributeError

/-- Step 2 of `run_once`: read the latest Telegram message and, when a
verse reference can be resolved from it (locally, else via Gemini when
available), replace the current position.  Returns the (possibly
updated) position plus the run-log steps this stage appends. -/
def checkOverride (env : Env) (cs ca : Int) :
    Except PyErr (Int × Int × List Step) :=
  match get_latest_telegram_message env with
  | none => .ok (cs, ca, [])
  | some m =>
    if !m.truthy then .ok (cs, ca, [])
    else
      match extractMsgText env m with
      | .error e => .error e
      | .ok none => .ok (cs, ca, [])
      | .ok (some mt) =>
        if !mt.truthy then .ok (cs, ca, [])
        else
          match previewSlice mt with
          | .error e => .error e
          | .ok _ =>
            match asStr mt with
            | .error e => .error e
            | .ok t =>
              match
                (match parse_verse_locally t with
                 | some v => some v
                 | none =>
                   if env.hasGemini then identify_verse_with_gemini env t
                   else none) with
              | some v =>
                .ok (v.1, v.2, [Step.telegramMessageText,
                                Step.updatedFromTelegram v.1 v.2])
              | none => .ok (cs, ca, [Step.telegramMessageText])

/-- The verse-text / surah-name normalisation after a successful fetch:
`verse_data.get('text') if isinstance(verse_data, dict) else None`, the
surah-name extraction, and the `if not verse_text and 'text' in
verse_data` retry whose `in` and `.get` raise on non-dict bodies. -/
def normalizeVerse (vd : Json) : Except PyErr (Option Json × Option Json) :=
  let verseText0 : Option Json :=
    match vd with | .obj fs => jget fs ("text") | _ => none
  let surahName : Option Json :=
    match vd with
    | .obj fs =>
      match jget fs ("surah") with
      | some (.obj sfs) => jget sfs ("name")
      | _ => none
    | _ => none
  if optTruthy verseText0 then .ok (verseText0, surahName)
  else
    match pyContains vd ("text") with
    | .error e => .error e
    | .ok true =>
      match vd with
      | .obj fs => .ok (jget fs ("text"), surahName)
      | _ => .error .attributeError
    | .ok false => .ok (verseText0, surahName)

/-- Step 5 of `run_once`: post to Telegram; on success `save_state` is
called with the new position and the run is marked successful. -/
def publishStage (env : Env) (steps : List Step) (ns na : Int) : RunResult :=
  if post_to_telegram env then
    { steps := steps ++ [Step.postedToTelegram ns na], success := true,
      stateWrite := some (ns, na), postAttempted := true }
  else
    { steps := steps ++ [Step.telegramPostFailed], success := false,
      stateWrite := none, postAttempted := true }

/-- Step 4 of `run_once`: fetch the verse; `if not verse_data:` — a
missing or falsy fetch result ends the run (run log written, no
publish, no state write); otherwise normalise the verse data and
publish. -/
def fetchStage (env : Env) (steps : List Step) (ns na : Int) :
    Except PyErr RunResult :=
  match fetch_verse env.quranAyahResp with
  | none =>
    .ok { steps := steps ++ [Step.fetchVerseFailed], success := false,
          stateWrite := none, postAttempted := false }
  | some vd =>
    if !vd.truthy then
      .ok { steps := steps ++ [Step.fetchVerseFailed], success := false,
            stateWrite := none, postAttempted := false }
    else
      match normalizeVerse vd with
      | .error e => .error e
      | .ok _ => .ok (publishStage env (steps ++ [Step.preparedMessage]) ns na)

/-- Model of `run_once`: load state, apply a Telegram override if one
resolves, compute the next verse, fetch it, publish, and persist only
on a successful publish.  `Except.error` is an uncaught Python
exception escaping `run_once` to the process boundary. -/
def run_once (env : Env) : Except PyErr RunResult :=
  match stateInts env with
  | .error e => .error e
  | .ok st =>
    match checkOverride env st.1 st.2 with
    | .error e => .error e
    | .ok ov =>
      match compute_next_verse env.quranSurahResp ov.1 ov.2.1 with
      | .error e => .error e
      | .ok nx =>
        fetchStage env
          ([Step.loadedState st.1 st.2] ++ ov.2.2 ++
            [Step.nextVerseComputed nx.1 nx.2])
          nx.1 nx.2

/-- The run's effect on the state file: the `save_state` arguments when
one happened, `none` when the file is untouched (`save_state` is the
only writer of the state file, so `none` means the file is
byte-for-byte unchanged). -/
def finalStateWrite (env : Env) : Option (Int × Int) :=
  match run_once env with
  | .ok r => r.stateWrite
  | .error _ => none

/-! ### Concrete runs used by the theorems -/

/-- A run with `TELEGRAM_BOT_TOKEN` unset and everything else healthy:
state `(2, 74)`, surah 2 reported with 286 ayahs, a well-formed verse
response. -/
def envNoCreds : Env :=
  { botToken := none, chatId := some ("c"),
    stateFileJson := some (some (Json.obj
      [("last_surah", Json.num 2), ("last_ayah", Json.num 74)])),
    latestMessage := none, ocrText := none,
    hasGemini := false, geminiClient := false, geminiResp := none,
    quranSurahResp := some (Json.obj [("code", Json.num 200),
      ("data", Json.obj [("numberOfAyahs", Json.num 286)])]),
    quranAyahResp := some (Json.obj [("code", Json.num 200),
      ("data", Json.obj [("text", Json.str ("v")),
        ("surah", Json.obj [("name", Json.str ("n"))])])]),
    postOk := true }

/-- A run with credentials present but both Quran API calls failing
(request exceptions). -/
def envFetchFail : Env :=
  { botToken := some ("t"), chatId := some ("c"),
    stateFileJson := some (some (Json.obj
      [("last_surah", Json.num 2), ("last_ayah", Json.num 74)])),
    latestMessage := none, ocrText := none,
    hasGemini := false, geminiClient := false, geminiResp := none,
    quranSurahResp := none, quranAyahResp := none, postOk := true }

/-- A run whose state file holds the valid JSON text `[]` (an array,
not an object). -/
def envBadState : Env :=
  { botToken := some ("t"), chatId := some ("c"),
    stateFileJson := some (some (Json.arr [])),
    latestMessage := none, ocrText := none,
    hasGemini := false, geminiClient := false, geminiResp := none,
    quranSurahResp := none, quranAyahResp := none, postOk := true }

/-- A run where Gemini is configured and answers
`{"surah": 120, "ayah": 5}` — an out-of-range surah. -/
def envGemini : Env :=
  { botToken := some ("t"), chatId := some ("c"),
    stateFileJson := none, latestMessage := none, ocrText := none,
    hasGemini := true, geminiClient := true,
    geminiResp := some (some 120, some 5),
    quranSurahResp := none, quranAyahResp := none, postOk := true }

/-- A `GET /surah/{n}` response reporting 7 ayahs. -/
def surahRespW : Option Json :=
  some (Json.obj [("code", Json.num 200),
    ("data", Json.obj [("numberOfAyahs", Json.num 7)])])

/-- A `GET /surah/{n}` response whose `data` field is the number 5 —
well-formed envelope, but no recognisable ayah count inside. -/
def surahResp5 : Option Json :=
  some (Json.obj [("code", Json.num 200), ("data", Json.num 5)])

/-- A `GET /surah/{n}` response reporting a total of 0 ayahs. -/
def surahRespZero : Option Json :=
  some (Json.obj [("code", Json.num 200),
    ("data", Json.obj [("numberOfAyahs", Json.num 0)])])

/-! ### Helper lemmas about the orchestrator -/

/-- A publish stage either posts successfully and records the state
write, or fails and records none. -/
theorem publishStage_write (env : Env) (steps : List Step) (ns na : Int) :
    (post_to_telegram env = true ∧
      (publishStage env steps ns na).stateWrite = some (ns, na) ∧
      (publishStage env steps ns na).success = true ∧
      (publishStage env steps ns na).postAttempted = true) ∨
    (post_to_telegram env = false ∧
      (publishStage env steps ns na).stateWrite = none ∧
      (publishStage env steps ns na).success = false ∧
      (publishStage env steps ns na).postAttempted = true) := by
  unfold publishStage
  cases hp : post_to_telegram env <;> simp [hp]

/-- A completed fetch stage either hit a missing/falsy verse fetch and
wrote nothing without attempting a post, or reached the publish stage
on a truthy fetched verse. -/
theorem fetchStage_outcomes (env : Env) (steps : List Step) (ns na : Int)
    (r : RunResult) (h : fetchStage env steps ns na = Except.ok r) :
    (optTruthy (fetch_verse env.quranAyahResp) = false ∧
      r.stateWrite = none ∧ r.postAttempted = false ∧ r.success = false) ∨
    ((∃ vd, fetch_verse env.quranAyahResp = some vd ∧ vd.truthy = true) ∧
      ∃ steps2, r = publishStage env steps2 ns na) := by
  unfold fetchStage at h
  split at h
  next hf =>
    injection h with h2
    subst h2
    exact Or.inl ⟨by rw [hf]; rfl, rfl, rfl, rfl⟩
  next vd hf =>
    split at h
    next ht =>
      injection h with h2
      subst h2
      refine Or.inl ⟨?_, rfl, rfl, rfl⟩
      rw [hf]
      simpa [optTruthy] using ht
    next ht =>
      split at h
      next e hn => exact Except.noConfusion h
      next u hn =>
        injection h with h2
        subst h2
        refine Or.inr ⟨⟨vd, hf, ?_⟩, ⟨steps ++ [Step.preparedMessage], rfl⟩⟩
        simpa using ht

/-- Every completed run falls into one of three cases: fetch failed (no
write, no post), publish succeeded (state written), or publish failed
(no write). -/
theorem run_once_outcomes (env : Env) (r : RunResult)
    (h : run_once env = Except.ok r) :
    (optTruthy (fetch_verse env.quranAyahResp) = false ∧
      r.stateWrite = none ∧ r.postAttempted = false ∧ r.success = false) ∨
    (post_to_telegram env = true ∧
      (∃ vd, fetch_verse env.quranAyahResp = some vd ∧ vd.truthy = true) ∧
      r.success = true ∧ r.postAttempted = true ∧ ∃ p, r.stateWrite = some p) ∨
    (post_to_telegram env = false ∧
      (∃ vd, fetch_verse env.quranAyahResp = some vd ∧ vd.truthy = true) ∧
      r.stateWrite = none ∧ r.postAttempted = true ∧ r.success = false) := by
  unfold run_once at h
  split at h
  next => exact Except.noConfusion h
  next st hsi =>
    split at h
    next => exact Except.noConfusion h
    next ov hco =>
      split at h
      next => exact Except.noConfusion h
      next nx hcn =>
        rcases fetchStage_outcomes env _ nx.1 nx.2 r h with
          hcase | ⟨hvd, ⟨steps2, hr⟩⟩
        · exact Or.inl hcase
        · subst hr
          rcases publishStage_write env steps2 nx.1 nx.2 with
            ⟨hp, hw, hs, hpa⟩ | ⟨hp, hw, hs, hpa⟩
          · exact Or.inr (Or.inl ⟨hp, hvd, hs, hpa, ⟨_, hw⟩⟩)
          · exact Or.inr (Or.inr ⟨hp, hvd, hw, hpa, hs⟩)

/-- When the publish reports failure, the state file is untouched. -/
theorem post_false_no_write (env : Env) (hp : post_to_telegram env = false) :
    finalStateWrite env = none := by
  unfold finalStateWrite
  cases hr : run_once env with
  | error e => rfl
  | ok r =>
    rcases run_once_outcomes env r hr with
      ⟨_, hw, _, _⟩ | ⟨hp2, _⟩ | ⟨_, _, hw, _, _⟩
    · exact hw
    · rw [hp] at hp2; exact Bool.noConfusion hp2
    · exact hw

/-- Any pair the accept logic produces passed the range check
`1 <= surah <= 114 and ayah >= 1`. -/
theorem acceptMatch_range (o : Option Caps) (s a : Int)
    (h : acceptMatch o = some (s, a)) : 1 ≤ s ∧ s ≤ 114 ∧ 1 ≤ a := by
  unfold acceptMatch at h
  split at h
  next => exact Option.noConfusion h
  next caps =>
    split at h
    next => exact Option.noConfusion h
    next g1 hg1 =>
      split at h
      next => exact Option.noConfusion h
      next g2 hg2 =>
        split at h
        next => exact Option.noConfusion h
        next si hsi =>
          split at h
          next => exact Option.noConfusion h
          next ai hai =>
            split at h
            next hc =>
              injection h with h2
              injection h2 with e1 e2
              subst e1
              subst e2
              exact hc
            next hc => exact Option.noConfusion h

/-- Range property lifted to a single pattern attempt. -/
theorem tryPat_range (p : Pat) (cs : List Char) (s a : Int)
    (h : tryPat p cs = some (s, a)) : 1 ≤ s ∧ s ≤ 114 ∧ 1 ≤ a :=
  acceptMatch_range (searchFrom p cs) s a h

/-! ### The claims -/

/-- C1: for `1 ≤ s ≤ 114` and `1 ≤ a ≤ total`, when the surah-info
lookup succeeds with a truthy payload whose total extraction yields
`total`, `compute_next_verse` returns `(s, a+1)` when `a < total` and
`((s % 114) + 1, 1)` otherwise; in particular at `s = 114`, `a = total`
it returns `(1, 1)`. -/
theorem C1_progression (resp : Option Json) (info : Json) (s a total : Int)
    (hs1 : 1 ≤ s) (hs2 : s ≤ 114) (ha : 1 ≤ a) (hat : a ≤ total)
    (hresp : get_surah_info resp = some info) (htr : info.truthy = true)
    (hl : lookupTotal info = Except.ok (some total)) :
    (a < total → compute_next_verse resp s a = Except.ok (s, a + 1)) ∧
    (¬a < total → compute_next_verse resp s a = Except.ok ((s % 114) + 1, 1)) ∧
    (s = 114 → a = total → compute_next_verse resp s a = Except.ok (1, 1)) := by
  have hbase : compute_next_verse resp s a =
      (if a < total then Except.ok (s, a + 1)
       else Except.ok ((s % 114) + 1, 1)) := by
    simp [compute_next_verse, hresp, htr, hl]
  refine ⟨fun hlt => ?_, fun hge => ?_, fun hs114 hatot => ?_⟩
  · rw [hbase, if_pos hlt]
  · rw [hbase, if_neg hge]
  · subst hs114
    subst hatot
    rw [hbase, if_neg (lt_irrefl a)]
    norm_num

/-- C1 witness: surah 114 at its reported last ayah wraps to `(1, 1)`. -/
theorem C1_progression_witness :
    compute_next_verse surahRespW 114 7 = Except.ok (1, 1) :=
  (C1_progression surahRespW (Json.obj [("numberOfAyahs", Json.num 7)]) 114 7 7
    (by decide) (by decide) (by decide) (by decide) rfl rfl rfl).2.2 rfl rfl

/-- C2: the state file is written only when the publish reports
success; a failed (or falsy) verse fetch ends the run with no publish
attempt and no write, and a failed publish ends it with no write — in
both cases the state file is untouched. -/
theorem C2_persist_only_after_publish (env : Env) :
    (∀ p, finalStateWrite env = some p → post_to_telegram env = true) ∧
    (optTruthy (fetch_verse env.quranAyahResp) = false →
      finalStateWrite env = none ∧
      ∀ r, run_once env = Except.ok r →
        r.postAttempted = false ∧ r.success = false) ∧
    (post_to_telegram env = false → finalStateWrite env = none) := by
  refine ⟨?_, ?_, fun hp => post_false_no_write env hp⟩
  · intro p hp
    unfold finalStateWrite at hp
    cases hr : run_once env with
    | error e => rw [hr] at hp; exact Option.noConfusion hp
    | ok r =>
      rw [hr] at hp
      have hps : r.stateWrite = some p := hp
      rcases run_once_outcomes env r hr with
        ⟨_, hw, _, _⟩ | ⟨hpt, _⟩ | ⟨_, _, hw, _, _⟩
      · rw [hw] at hps; exact Option.noConfusion hps
      · exact hpt
      · rw [hw] at hps; exact Option.noConfusion hps
  · intro hf
    constructor
    · unfold finalStateWrite
      cases hr : run_once env with
      | error e => rfl
      | ok r =>
        rcases run_once_outcomes env r hr with
          ⟨_, hw, _, _⟩ | ⟨_, ⟨vd, hvd, ht⟩, _⟩ | ⟨_, ⟨vd, hvd, ht⟩, _⟩
        · exact hw
        · rw [hvd] at hf; simp [optTruthy, ht] at hf
        · rw [hvd] at hf; simp [optTruthy, ht] at hf
    · intro r hr
      rcases run_once_outcomes env r hr with
        ⟨_, _, hpa, hs⟩ | ⟨_, ⟨vd, hvd, ht⟩, _⟩ | ⟨_, ⟨vd, hvd, ht⟩, _⟩
      · exact ⟨hpa, hs⟩
      · rw [hvd] at hf; simp [optTruthy, ht] at hf
      · rw [hvd] at hf; simp [optTruthy, ht] at hf

/-- C2 witness: with both Quran API calls failing, the state file of a
concrete run is untouched. -/
theorem C2_persist_witness : finalStateWrite envFetchFail = none :=
  ((C2_persist_only_after_publish envFetchFail).2.1 rfl).1

/-- C3 counterexample: the Gemini fallback returns `(120, 5)` — a
surah out of range — when the model answers that, so not every
resolver-returned pair satisfies `surah ≤ 114`; and on the text
`"12:120:5"`, which contains `"120:5"`, the numeric shorthand pattern
does yield a pair, `(12, 120)`. -/
theorem C3_counterexample :
    (identify_verse_with_gemini envGemini ("x") = some (120, 5) ∧
      ¬((120 : Int) ≤ 114)) ∧
    (("12:120:5" : String) = ("12:") ++ ("120:5") ∧
      tryPat pat2 (normalizeDigits ("12:120:5").data) = some (12, 120)) :=
  ⟨⟨rfl, by decide⟩, ⟨rfl, by decide⟩⟩

/-- C3 amended: every pair produced by the local regex resolver
satisfies `1 ≤ surah ≤ 114` and `ayah ≥ 1`, and on the exact text
`"120:5"` the numeric shorthand pattern yields no pair; the AI fallback
checks only that both fields are present and non-zero. -/
theorem C3_amended_resolver :
    (∀ t s a, parse_verse_locally t = some (s, a) →
      1 ≤ s ∧ s ≤ 114 ∧ 1 ≤ a) ∧
    tryPat pat2 (normalizeDigits ("120:5").data) = none ∧
    (∀ env t s a, identify_verse_with_gemini env t = some (s, a) →
      s ≠ 0 ∧ a ≠ 0) := by
  refine ⟨?_, by decide, ?_⟩
  · intro t s a h
    unfold parse_verse_locally at h
    split at h
    next r h1 =>
      injection h with h2
      subst h2
      exact tryPat_range _ _ _ _ h1
    next h1 =>
      split at h
      next r h2 =>
        injection h with h3
        subst h3
        exact tryPat_range _ _ _ _ h2
      next h2 => exact tryPat_range _ _ _ _ h
  · intro env t s a h
    unfold identify_verse_with_gemini at h
    split at h
    next => exact Option.noConfusion h
    next =>
      split at h
      next => exact Option.noConfusion h
      next fields =>
        split at h
        next si ai hf =>
          split at h
          next hc =>
            injection h with h2
            injection h2 with e1 e2
            subst e1
            subst e2
            simpa [Bool.and_eq_true, bne_iff_ne] using hc
          next hc => exact Option.noConfusion h
        next => exact Option.noConfusion h

/-- C3 witness: the range property evaluated on the resolved pair of
`"2:255"`. -/
theorem C3_amended_witness :
    parse_verse_locally ("2:255") = some (2, 255) ∧
    (1 ≤ (2 : Int) ∧ (2 : Int) ≤ 114 ∧ 1 ≤ (255 : Int)) :=
  ⟨by decide, C3_amended_resolver.1 ("2:255") 2 255 (by decide)⟩

/-- C4 counterexample: with the bot token unset, a concrete run does
not short-circuit — it still computes the progression, fetches and
prepares the verse, and reaches the publish step (which fails), as the
run-log steps show. -/
theorem C4_counterexample :
    envNoCreds.botToken = none ∧
    run_once envNoCreds = Except.ok
      { steps := [Step.loadedState 2 74, Step.nextVerseComputed 2 75,
                  Step.preparedMessage, Step.telegramPostFailed],
        success := false, stateWrite := none, postAttempted := true } :=
  ⟨rfl, rfl⟩

/-- C4 amended: with a credential missing, the message fetch returns
nothing, the publish reports failure, and no state is written — the
run is harmless but not short-circuited. -/
theorem C4_amended_no_creds (env : Env)
    (h : env.botToken = none ∨ env.chatId = none) :
    get_latest_telegram_message env = none ∧ post_to_telegram env = false ∧
    finalStateWrite env = none := by
  have hcred :
      (!(optStrTruthy env.botToken) || !(optStrTruthy env.chatId)) = true := by
    rcases h with h | h <;> rw [h] <;> simp [optStrTruthy]
  have hp : post_to_telegram env = false := by
    unfold post_to_telegram
    simp [hcred]
  refine ⟨?_, hp, post_false_no_write env hp⟩
  unfold get_latest_telegram_message
  simp [hcred]

/-- C4 witness: the amended statement at the concrete credential-less
run. -/
theorem C4_amended_witness :
    get_latest_telegram_message envNoCreds = none ∧
    post_to_telegram envNoCreds = false ∧
    finalStateWrite envNoCreds = none :=
  C4_amended_no_creds envNoCreds (Or.inl rfl)

/-- C5 counterexample: a well-formed envelope whose `data` is the
number 5 — the lookup succeeds but contains no recognisable count —
makes `compute_next_verse` raise a `TypeError` instead of returning
`(surah, ayah + 1)`. -/
theorem C5_counterexample :
    get_surah_info surahResp5 = some (Json.num 5) ∧
    compute_next_verse surahResp5 2 10 = Except.error PyErr.typeError :=
  ⟨rfl, rfl⟩

/-- C5 amended: when the surah-info lookup returns nothing or a falsy
value, or returns an object with no recognisable ayah count,
`compute_next_verse` returns `(surah, ayah + 1)` without failing;
truthy non-object payloads instead raise. -/
theorem C5_amended_default (resp : Option Json) (s a : Int)
    (h : get_surah_info resp = none ∨
         (∃ j, get_surah_info resp = some j ∧ j.truthy = false) ∨
         (∃ fs, get_surah_info resp = some (Json.obj fs) ∧
                lookupTotal (Json.obj fs) = Except.ok none)) :
    compute_next_verse resp s a = Except.ok (s, a + 1) := by
  rcases h with h | ⟨j, hj, htr⟩ | ⟨fs, hf, hl⟩
  · simp [compute_next_verse, h]
  · simp [compute_next_verse, hj, htr]
  · simp [compute_next_verse, hf, hl]

/-- C5 witness: a failed lookup advances within the surah. -/
theorem C5_amended_witness : compute_next_verse none 3 4 = Except.ok (3, 5) :=
  C5_amended_default none 3 4 (Or.inl rfl)

/-- C6: when the reported total is 0, or the current ayah exceeds it,
`compute_next_verse` completes without error and wraps to
`((s % 114) + 1, 1)`. -/
theorem C6_zero_total_wraps (resp : Option Json) (info : Json)
    (s a total : Int) (ha : 0 ≤ a) (hresp : get_surah_info resp = some info)
    (htr : info.truthy = true) (hl : lookupTotal info = Except.ok (some total))
    (h : total = 0 ∨ total < a) :
    compute_next_verse resp s a = Except.ok ((s % 114) + 1, 1) := by
  have hna : ¬a < total := by rcases h with rfl | h2 <;> omega
  simp [compute_next_verse, hresp, htr, hl, hna]

/-- C6 witness: a reported total of 0 advances surah 5 to `(6, 1)`. -/
theorem C6_zero_total_witness :
    compute_next_verse surahRespZero 5 0 = Except.ok (6, 1) :=
  C6_zero_total_wraps surahRespZero (Json.obj [("numberOfAyahs", Json.num 0)])
    5 0 0 (by decide) rfl rfl rfl (Or.inl rfl)

/-- C7: a state file holding the valid JSON text `[]` makes `run_once`
raise an uncaught `AttributeError` (from `state.get` on a list) to the
process boundary. -/
theorem C7_state_file_crash :
    run_once envBadState = Except.error PyErr.attributeError := rfl

/-- C8: `"2:255"` and its Arabic-Indic spelling resolve to the same
pair, and the normalisation maps the latter text to the former. -/
theorem C8_digit_normalization :
    parse_verse_locally ("2:255") = some (2, 255) ∧
    parse_verse_locally ("٢:٢٥٥") = some (2, 255) ∧
    normalizeDigits ("٢:٢٥٥").data = ("2:255").data :=
  ⟨by decide, by decide, by decide⟩

/-- C9: on `"البقرة 5"` the fallback pattern does match (token and
number captured), but `int()` on the token fails, so
`parse_verse_locally` returns no pair at all. -/
theorem C9_fallback_never_pairs :
    searchFrom pat3 (normalizeDigits ("البقرة 5").data) =
      some [(1, ("البقرة").data), (2, ("5").data)] ∧
    pyInt (("البقرة").data) = none ∧
    parse_verse_locally ("البقرة 5") = none :=
  ⟨by decide, by decide, by decide⟩

/-- C10: the numeric pattern is not anchored, so `"2:25555"` resolves
to `(2, 2555)` — the ayah truncated to its first four digits — rather
than to no match. -/
theorem C10_ayah_truncation :
    parse_verse_locally ("2:25555") = some (2, 2555) := by decide
